import Mathlib

/-!
Shallow embedding of FlipMouse (src/main.c): the event-translation engine,
toggle/hold detection, control-command handling, status-file writes, and the
event loop's output dispatch. Machine integers from the C source are modelled
as `Int` (C `int`); the one `unsigned int` (`slowdown_counter`) is modelled as
`Nat` reduced modulo 2^32 on every increment, matching defined C semantics.
-/

namespace FlipMouse

/- Event type / code constants from linux/input-event-codes.h used by main.c. -/

def EV_SYN : Int := 0
def EV_KEY : Int := 1
def EV_REL : Int := 2
def EV_MSC : Int := 4
def SYN_REPORT : Int := 0
def MSC_SCAN : Int := 4
def REL_X : Int := 0
def REL_Y : Int := 1
def REL_WHEEL : Int := 8
def KEY_ENTER : Int := 28
def KEY_B : Int := 48
def KEY_F12 : Int := 88
def KEY_UP : Int := 103
def KEY_LEFT : Int := 105
def KEY_RIGHT : Int := 106
def KEY_DOWN : Int := 108
def KEY_VOLUMEDOWN : Int := 114
def KEY_VOLUMEUP : Int := 115
def KEY_HELP : Int := 138
def KEY_MENU : Int := 139
def KEY_SEND : Int := 231
def BTN_LEFT : Int := 272

/- Constants from main.c. -/

def MIN_MOUSE_SPEED : Int := 1

def WHEEL_SLOWDOWN_FACTOR : Nat := 5

def MAX_TOGGLE_HOLD_TIME : Int := 1

/-- Modulus of the C `unsigned int` type (32 bits): 2^32. -/
def UINT_MOD : Nat := 4294967296

/- Event action return codes (event_action_t in main.c). -/

def CHANGED_TO_MOUSE : Int := -2
def MUTE_EVENT : Int := 0
def PASS_THRU_EVENT : Int := 1
def CHANGED_EVENT : Int := 2

/-- keymap_t from main.c: maps a raw scancode to a keycode. -/
structure keymap_t where
  scancode : Int
  keycode : Int
deriving DecidableEq, Repr

/-- keypad_keymap from main.c (TCL Flip2 keypad). -/
def keypad_keymap : List keymap_t :=
  [⟨35, KEY_UP⟩, ⟨9, KEY_DOWN⟩, ⟨19, KEY_LEFT⟩, ⟨34, KEY_RIGHT⟩,
   ⟨33, KEY_MENU⟩, ⟨2, KEY_SEND⟩, ⟨42, KEY_HELP⟩]

/-- laptop_keymap from main.c (AT translated set 2 keyboard). -/
def laptop_keymap : List keymap_t :=
  [⟨200, KEY_UP⟩, ⟨208, KEY_DOWN⟩, ⟨203, KEY_LEFT⟩, ⟨205, KEY_RIGHT⟩,
   ⟨17, KEY_MENU⟩, ⟨31, KEY_SEND⟩, ⟨88, KEY_HELP⟩]

/-- keymap_get_scanvalue from main.c: first entry whose keycode matches,
returning its scancode, else the -1 sentinel. -/
def keymap_get_scanvalue : List keymap_t → Int → Int
  | [], _ => -1
  | e :: rest, keycode =>
      if e.keycode = keycode then e.scancode else keymap_get_scanvalue rest keycode

/-- keymap_get_keycode from main.c: first entry whose scancode matches,
returning its keycode, else the -1 sentinel. -/
def keymap_get_keycode : List keymap_t → Int → Int
  | [], _ => -1
  | e :: rest, scanvalue =>
      if e.scancode = scanvalue then e.keycode else keymap_get_keycode rest scanvalue

/-- The mutable fields of mouse_t in main.c (the two libevdev handles are
opaque OS resources and carry no state the engine reads). -/
structure mouse_t where
  enabled : Int
  toggle_down_at : Int
  speed : Int
  drag_mode : Int
deriving DecidableEq, Repr

/-- struct input_event as read by run_event_loop: seconds timestamp, type,
code, value (all C integers). -/
structure input_event where
  time : Int
  type : Int
  code : Int
  value : Int
deriving DecidableEq, Repr

/-- C logical negation `!x` on an int flag: 1 when x is 0, else 0. -/
def cNot (x : Int) : Int := if x = 0 then 1 else 0

/-- The mouse state established by mouse_init in main.c:
enabled=0, speed=4, drag_mode=0, toggle_down_at=0. -/
def mouse_init_mouse : mouse_t :=
  { enabled := 0, toggle_down_at := 0, speed := 4, drag_mode := 0 }

/-- get_toggle_time from main.c: 0 when the toggle key is not down, else the
difference between the event time and the press timestamp. -/
def get_toggle_time (m : mouse_t) (event_time : Int) : Int :=
  if m.toggle_down_at = 0 then 0 else event_time - m.toggle_down_at

/-- Result record for mouse_toggle: return code, updated mouse state, and the
status-file snapshot written during the call (none when write_status_file was
not called; the snapshot content is (enabled, speed, drag_mode)). -/
structure ToggleOut where
  result : Int
  mouse : mouse_t
  status : Option (Int × Int × Int)
deriving DecidableEq, Repr

/-- mouse_toggle from main.c. On press (value==1) it records the press
timestamp. On release (value==0) with a hold in flight it flips `enabled`
and writes the status file only when the hold lasted strictly less than
MAX_TOGGLE_HOLD_TIME; the long-hold release branch returns without touching
the state. Anything else (e.g. autorepeat) is muted. The input event itself
is never modified by mouse_toggle. -/
def mouse_toggle (m : mouse_t) (ev : input_event) : ToggleOut :=
  if ev.value = 1 then
    { result := CHANGED_TO_MOUSE, mouse := { m with toggle_down_at := ev.time }, status := none }
  else if ev.value = 0 ∧ m.toggle_down_at ≠ 0 then
    if get_toggle_time m ev.time < MAX_TOGGLE_HOLD_TIME then
      { result := CHANGED_TO_MOUSE,
        mouse := { m with enabled := cNot m.enabled, toggle_down_at := 0 },
        status := some (cNot m.enabled, m.speed, m.drag_mode) }
    else
      { result := CHANGED_TO_MOUSE, mouse := m, status := none }
  else
    { result := MUTE_EVENT, mouse := m, status := none }

/-- Result record for mouse_handle_event: return code, updated mouse state,
updated slowdown counter, and the (possibly rewritten) event. -/
structure MHEOut where
  result : Int
  mouse : mouse_t
  slowdown_counter : Nat
  ev : input_event
deriving DecidableEq, Repr

/-- The switch statement of mouse_handle_event in main.c, dispatching on the
(possibly scan-decoded) keycode. `sc` is the static `slowdown_counter`
(unsigned int; post-incremented modulo 2^32 in the two scroll branches). -/
def mhe_dispatch (m : mouse_t) (sc : Nat) (ev : input_event) (keycode : Int) : MHEOut :=
  if keycode = KEY_VOLUMEUP then
    if ev.value = 1 then
      { result := MUTE_EVENT, mouse := { m with speed := m.speed + 1 }, slowdown_counter := sc, ev := ev }
    else
      { result := MUTE_EVENT, mouse := m, slowdown_counter := sc, ev := ev }
  else if keycode = KEY_VOLUMEDOWN then
    if ev.value = 1 then
      { result := MUTE_EVENT,
        mouse := { m with speed := if m.speed - 1 < MIN_MOUSE_SPEED then MIN_MOUSE_SPEED else m.speed - 1 },
        slowdown_counter := sc, ev := ev }
    else
      { result := MUTE_EVENT, mouse := m, slowdown_counter := sc, ev := ev }
  else if keycode = KEY_ENTER then
    { result := CHANGED_TO_MOUSE, mouse := m, slowdown_counter := sc,
      ev := { ev with type := EV_KEY, code := BTN_LEFT } }
  else if keycode = KEY_B then
    if ev.value = 1 then
      { result := CHANGED_TO_MOUSE,
        mouse := { m with drag_mode := cNot m.drag_mode },
        slowdown_counter := sc,
        ev := { ev with type := EV_KEY, code := BTN_LEFT, value := if cNot m.drag_mode ≠ 0 then 1 else 0 } }
    else
      { result := PASS_THRU_EVENT, mouse := m, slowdown_counter := sc, ev := ev }
  else if keycode = KEY_UP then
    { result := CHANGED_TO_MOUSE, mouse := m, slowdown_counter := sc,
      ev := { ev with type := EV_REL, code := REL_Y, value := -m.speed } }
  else if keycode = KEY_DOWN then
    { result := CHANGED_TO_MOUSE, mouse := m, slowdown_counter := sc,
      ev := { ev with type := EV_REL, code := REL_Y, value := m.speed } }
  else if keycode = KEY_LEFT then
    { result := CHANGED_TO_MOUSE, mouse := m, slowdown_counter := sc,
      ev := { ev with type := EV_REL, code := REL_X, value := -m.speed } }
  else if keycode = KEY_RIGHT then
    { result := CHANGED_TO_MOUSE, mouse := m, slowdown_counter := sc,
      ev := { ev with type := EV_REL, code := REL_X, value := m.speed } }
  else if keycode = KEY_MENU then
    if sc % WHEEL_SLOWDOWN_FACTOR ≠ 0 then
      { result := MUTE_EVENT, mouse := m, slowdown_counter := (sc + 1) % UINT_MOD, ev := ev }
    else
      { result := CHANGED_TO_MOUSE, mouse := m, slowdown_counter := (sc + 1) % UINT_MOD,
        ev := { ev with type := EV_REL, code := REL_WHEEL, value := 1 } }
  else if keycode = KEY_SEND then
    if sc % WHEEL_SLOWDOWN_FACTOR ≠ 0 then
      { result := MUTE_EVENT, mouse := m, slowdown_counter := (sc + 1) % UINT_MOD, ev := ev }
    else
      { result := CHANGED_TO_MOUSE, mouse := m, slowdown_counter := (sc + 1) % UINT_MOD,
        ev := { ev with type := EV_REL, code := REL_WHEEL, value := -1 } }
  else
    { result := PASS_THRU_EVENT, mouse := m, slowdown_counter := sc, ev := ev }

/-- mouse_handle_event from main.c. For an EV_MSC event whose code is
MSC_SCAN, the keycode is re-derived from the keymap (possibly the -1
sentinel). A direct EV_KEY event whose keycode has a keymap entry is muted
("handled via MSC_SCAN"). Everything else falls through to the switch. -/
def mouse_handle_event (km : List keymap_t) (m : mouse_t) (sc : Nat) (ev : input_event) : MHEOut :=
  if ev.type = EV_MSC then
    if ev.code = MSC_SCAN then
      mhe_dispatch m sc ev (keymap_get_keycode km ev.value)
    else
      mhe_dispatch m sc ev ev.code
  else if ev.type = EV_KEY then
    if keymap_get_scanvalue km ev.code ≠ -1 then
      { result := MUTE_EVENT, mouse := m, slowdown_counter := sc, ev := ev }
    else
      mhe_dispatch m sc ev ev.code
  else
    mhe_dispatch m sc ev ev.code

/-- Result record for handle_input_event: return code, updated mouse state,
updated slowdown counter, the (possibly rewritten) event, and the status-file
snapshot written during the call, if any. -/
structure HIEOut where
  result : Int
  mouse : mouse_t
  slowdown_counter : Nat
  ev : input_event
  status : Option (Int × Int × Int)
deriving DecidableEq, Repr

/-- handle_input_event from main.c. First the long-hold default-button path:
the source compares `ev->type == MSC_SCAN` (the constant MSC_SCAN, numerically
equal to EV_MSC) and `ev->code == MSC_SCAN`; when the decoded key is the
toggle key and the hold exceeds MAX_TOGGLE_HOLD_TIME it juggles
`toggle_down_at` through the sentinel values >1 / 1 / 0 and emits a mock
EV_KEY event as CHANGED_EVENT, muting when `toggle_down_at ≤ 0`. Then direct
EV_KEY toggle-key events go to mouse_toggle; with the mouse disabled
everything else passes through; otherwise mouse_handle_event runs (that
function never calls write_status_file, so its status component is none). -/
def handle_input_event (km : List keymap_t) (m : mouse_t) (sc : Nat) (ev : input_event) : HIEOut :=
  if ev.type = MSC_SCAN ∧ ev.code = MSC_SCAN ∧
      (keymap_get_keycode km ev.value = KEY_HELP ∨ keymap_get_keycode km ev.value = KEY_F12) ∧
      get_toggle_time m ev.time > MAX_TOGGLE_HOLD_TIME then
    if m.toggle_down_at > 1 then
      { result := CHANGED_EVENT, mouse := { m with toggle_down_at := 1 }, slowdown_counter := sc,
        ev := { ev with type := EV_KEY, code := keymap_get_keycode km ev.value, value := 1 },
        status := none }
    else if m.toggle_down_at = 1 then
      { result := CHANGED_EVENT, mouse := { m with toggle_down_at := 0 }, slowdown_counter := sc,
        ev := { ev with type := EV_KEY, code := keymap_get_keycode km ev.value, value := 0 },
        status := none }
    else
      { result := MUTE_EVENT, mouse := m, slowdown_counter := sc, ev := ev, status := none }
  else if ev.type = EV_KEY ∧ (ev.code = KEY_HELP ∨ ev.code = KEY_F12) then
    let t := mouse_toggle m ev
    { result := t.result, mouse := t.mouse, slowdown_counter := sc, ev := ev, status := t.status }
  else if m.enabled = 0 then
    { result := PASS_THRU_EVENT, mouse := m, slowdown_counter := sc, ev := ev, status := none }
  else
    let o := mouse_handle_event km m sc ev
    { result := o.result, mouse := o.mouse, slowdown_counter := o.slowdown_counter, ev := o.ev,
      status := none }

/- The event loop's output dispatch (run_event_loop in main.c): a positive
return code forwards the event plus a SYN_REPORT to the original device's
uinput clone, a negative one forwards them to the virtual mouse, zero mutes. -/

/-- The two output sinks of run_event_loop. -/
inductive Sink where
  | passthru
  | mouse
deriving DecidableEq, Repr

/-- One libevdev_uinput_write_event call made by run_event_loop. -/
structure SinkWrite where
  sink : Sink
  type : Int
  code : Int
  value : Int
deriving DecidableEq, Repr

/-- The uinput writes run_event_loop performs for a given handler return code
and final event (main.c lines 949-969). -/
def dispatch_writes (result : Int) (ev : input_event) : List SinkWrite :=
  if result > 0 then
    [{ sink := Sink.passthru, type := ev.type, code := ev.code, value := ev.value },
     { sink := Sink.passthru, type := EV_SYN, code := SYN_REPORT, value := 0 }]
  else if result < 0 then
    [{ sink := Sink.mouse, type := ev.type, code := ev.code, value := ev.value },
     { sink := Sink.mouse, type := EV_SYN, code := SYN_REPORT, value := 0 }]
  else
    []

/-- One input-event servicing step of run_event_loop: translate the event,
then perform the resulting uinput writes. -/
def process_input_event (km : List keymap_t) (m : mouse_t) (sc : Nat) (ev : input_event) :
    HIEOut × List SinkWrite :=
  let o := handle_input_event km m sc ev
  (o, dispatch_writes o.result o.ev)

/- Control interface (control_handle_command in main.c). -/

/-- The whitespace characters stripped from the front of a control command. -/
def is_cmd_space (c : Char) : Bool :=
  c = ' ' || c = '\n' || c = '\r' || c = '\t'

/-- Result record for control_handle_command: updated mouse state, updated
`running` flag, the reply written to the client, and the status-file snapshot
written during the call, if any. -/
structure ControlOut where
  mouse : mouse_t
  running : Int
  reply : List Char
  status : Option (Int × Int × Int)
deriving DecidableEq, Repr

/-- control_handle_command from main.c. Leading whitespace is skipped, then
the command is recognised by strncmp prefix match in the order enable,
disable, toggle, status, quit; `enable`/`disable` set the flag and write the
status file, `toggle` flips the flag without writing it, `status` only
replies, `quit` clears `running`, and anything else gets the error reply with
no mutation. -/
def control_handle_command (m : mouse_t) (running : Int) (buf : List Char) : ControlOut :=
  let cmd := buf.dropWhile is_cmd_space
  if "enable".data.isPrefixOf cmd then
    { mouse := { m with enabled := 1 }, running := running,
      reply := "ok enabled\n".data, status := some (1, m.speed, m.drag_mode) }
  else if "disable".data.isPrefixOf cmd then
    { mouse := { m with enabled := 0 }, running := running,
      reply := "ok disabled\n".data, status := some (0, m.speed, m.drag_mode) }
  else if "toggle".data.isPrefixOf cmd then
    { mouse := { m with enabled := cNot m.enabled }, running := running,
      reply := (if cNot m.enabled ≠ 0 then "ok enabled\n" else "ok disabled\n").data,
      status := none }
  else if "status".data.isPrefixOf cmd then
    { mouse := m, running := running,
      reply := ("enabled=" ++ toString m.enabled ++ " speed=" ++ toString m.speed
                ++ " drag=" ++ toString m.drag_mode ++ "\n").data,
      status := none }
  else if "quit".data.isPrefixOf cmd then
    { mouse := m, running := 0, reply := "ok quitting\n".data, status := none }
  else
    { mouse := m, running := running, reply := "err unknown_command\n".data, status := none }

/-- One control-channel servicing step of run_event_loop
(control_handle_ready → control_handle_command). That code path contains no
libevdev_uinput_write_event call, so its uinput sink-write trace is empty:
its only effects are the state mutation, the socket reply and possibly a
status-file write, all captured by ControlOut. -/
def control_step (m : mouse_t) (running : Int) (buf : List Char) : ControlOut × List SinkWrite :=
  (control_handle_command m running buf, [])

/-- Modelled from the spec (§4.4, this component is absent from src/main.c):
a Transition Sequencer run re-homes the pointer by emitting relative-motion
events on the virtual mouse sink, so a trace contains a run exactly when it
contains at least one EV_REL write to the mouse sink. -/
def sequencer_ran (ws : List SinkWrite) : Prop :=
  ∃ w ∈ ws, w.sink = Sink.mouse ∧ w.type = EV_REL

instance (ws : List SinkWrite) : Decidable (sequencer_ran ws) := by
  unfold sequencer_ran
  infer_instance

/-- Folding mouse_handle_event over a list of input events, threading the
mouse state and the slowdown counter, as successive loop iterations do. -/
def run_mouse_events (km : List keymap_t) : mouse_t → Nat → List input_event → mouse_t × Nat
  | m, sc, [] => (m, sc)
  | m, sc, ev :: rest =>
      let o := mouse_handle_event km m sc ev
      run_mouse_events km o.mouse o.slowdown_counter rest

/- Helper lemmas. -/

set_option maxHeartbeats 1000000 in
theorem mhe_dispatch_speed_lb (m : mouse_t) (sc : Nat) (ev : input_event) (keycode : Int)
    (h : MIN_MOUSE_SPEED ≤ m.speed) :
    MIN_MOUSE_SPEED ≤ (mhe_dispatch m sc ev keycode).mouse.speed := by
  unfold mhe_dispatch
  simp only [apply_ite (fun o : MHEOut => o.mouse.speed)]
  simp only [MIN_MOUSE_SPEED] at h ⊢
  split_ifs <;> omega

theorem mhe_speed_lb (km : List keymap_t) (m : mouse_t) (sc : Nat) (ev : input_event)
    (h : MIN_MOUSE_SPEED ≤ m.speed) :
    MIN_MOUSE_SPEED ≤ (mouse_handle_event km m sc ev).mouse.speed := by
  unfold mouse_handle_event
  split_ifs <;> first
    | exact mhe_dispatch_speed_lb _ _ _ _ h
    | exact h

set_option maxHeartbeats 1000000 in
theorem mhe_dispatch_enabled_eq (m : mouse_t) (sc : Nat) (ev : input_event) (keycode : Int) :
    (mhe_dispatch m sc ev keycode).mouse.enabled = m.enabled := by
  unfold mhe_dispatch
  simp only [apply_ite (fun o : MHEOut => o.mouse.enabled)]
  split_ifs <;> rfl

theorem mhe_enabled_eq (km : List keymap_t) (m : mouse_t) (sc : Nat) (ev : input_event) :
    (mouse_handle_event km m sc ev).mouse.enabled = m.enabled := by
  unfold mouse_handle_event
  split_ifs <;> first
    | exact mhe_dispatch_enabled_eq _ _ _ _
    | rfl

theorem mouse_toggle_speed_eq (m : mouse_t) (ev : input_event) :
    (mouse_toggle m ev).mouse.speed = m.speed := by
  unfold mouse_toggle
  split_ifs <;> rfl

theorem mouse_toggle_drag_eq (m : mouse_t) (ev : input_event) :
    (mouse_toggle m ev).mouse.drag_mode = m.drag_mode := by
  unfold mouse_toggle
  split_ifs <;> rfl

theorem mouse_toggle_result_nonpos (m : mouse_t) (ev : input_event) :
    (mouse_toggle m ev).result = CHANGED_TO_MOUSE ∨ (mouse_toggle m ev).result = MUTE_EVENT := by
  unfold mouse_toggle
  split_ifs <;> simp

/- Branch-equation lemmas for mhe_dispatch at the concrete keycodes used by
the claims; each is definitional. -/

theorem mhe_dispatch_left_eq (m : mouse_t) (sc : Nat) (ev : input_event) :
    mhe_dispatch m sc ev KEY_LEFT
      = { result := CHANGED_TO_MOUSE, mouse := m, slowdown_counter := sc,
          ev := { ev with type := EV_REL, code := REL_X, value := -m.speed } } := rfl

theorem mhe_dispatch_menu_eq (m : mouse_t) (sc : Nat) (ev : input_event) :
    mhe_dispatch m sc ev KEY_MENU
      = if sc % WHEEL_SLOWDOWN_FACTOR ≠ 0 then
          { result := MUTE_EVENT, mouse := m, slowdown_counter := (sc + 1) % UINT_MOD, ev := ev }
        else
          { result := CHANGED_TO_MOUSE, mouse := m, slowdown_counter := (sc + 1) % UINT_MOD,
            ev := { ev with type := EV_REL, code := REL_WHEEL, value := 1 } } := rfl

theorem mhe_dispatch_send_eq (m : mouse_t) (sc : Nat) (ev : input_event) :
    mhe_dispatch m sc ev KEY_SEND
      = if sc % WHEEL_SLOWDOWN_FACTOR ≠ 0 then
          { result := MUTE_EVENT, mouse := m, slowdown_counter := (sc + 1) % UINT_MOD, ev := ev }
        else
          { result := CHANGED_TO_MOUSE, mouse := m, slowdown_counter := (sc + 1) % UINT_MOD,
            ev := { ev with type := EV_REL, code := REL_WHEEL, value := -1 } } := rfl

/- Claim theorems. -/

/-- Claim C2 (confirmed): on a toggle-key release event (value 0) arriving
while a hold is in flight (toggle_down_at ≠ 0), a hold duration strictly
below MAX_TOGGLE_HOLD_TIME flips `enabled`, and a duration at or beyond the
threshold leaves `enabled` unchanged. -/
theorem C2_toggle_threshold (m : mouse_t) (ev : input_event)
    (hv : ev.value = 0) (hd : m.toggle_down_at ≠ 0) :
    (ev.time - m.toggle_down_at < MAX_TOGGLE_HOLD_TIME →
      (mouse_toggle m ev).mouse.enabled = cNot m.enabled) ∧
    (MAX_TOGGLE_HOLD_TIME ≤ ev.time - m.toggle_down_at →
      (mouse_toggle m ev).mouse.enabled = m.enabled) := by
  unfold mouse_toggle get_toggle_time
  simp only [hv, hd]
  constructor <;> intro h <;> split_ifs <;> simp_all <;> omega

/-- Witness for C2 at concrete inputs: a 0-second hold (press at 5, release
at 5) flips `enabled` from 0, and a 2-second hold (release at 7) leaves it
unchanged. -/
theorem C2_witness :
    (mouse_toggle ⟨0, 5, 4, 0⟩ ⟨5, EV_KEY, KEY_HELP, 0⟩).mouse.enabled = cNot 0 ∧
    (mouse_toggle ⟨0, 5, 4, 0⟩ ⟨7, EV_KEY, KEY_HELP, 0⟩).mouse.enabled = 0 :=
  ⟨(C2_toggle_threshold ⟨0, 5, 4, 0⟩ ⟨5, EV_KEY, KEY_HELP, 0⟩ rfl (by decide)).1 (by decide),
   (C2_toggle_threshold ⟨0, 5, 4, 0⟩ ⟨7, EV_KEY, KEY_HELP, 0⟩ rfl (by decide)).2 (by decide)⟩

/-- Claim C3 (confirmed): starting from the initial speed 4 set by
mouse_init, after any sequence of events processed by mouse_handle_event
(volume-up/volume-down speed adjustments in particular), the speed never
falls below MIN_MOUSE_SPEED = 1. -/
theorem C3_speed_invariant (km : List keymap_t) (evs : List input_event) :
    MIN_MOUSE_SPEED ≤ (run_mouse_events km mouse_init_mouse 0 evs).1.speed := by
  have h : ∀ (evs : List input_event) (m : mouse_t) (sc : Nat),
      MIN_MOUSE_SPEED ≤ m.speed →
      MIN_MOUSE_SPEED ≤ (run_mouse_events km m sc evs).1.speed := by
    intro evs
    induction evs with
    | nil => intro m sc hm; simpa [run_mouse_events] using hm
    | cons ev rest ih =>
        intro m sc hm
        exact ih _ _ (mhe_speed_lb km m sc ev hm)
  exact h evs mouse_init_mouse 0 (by decide)

/-- Claim C5 (confirmed): any control line whose whitespace-trimmed form
starts with "enable" sets `enabled` to 1, writes the status snapshot
(enabled=1 with the current speed and drag values) and replies "ok enabled",
regardless of whether the state was already enabled. -/
theorem C5_enable_command (m : mouse_t) (running : Int) (buf : List Char)
    (h : "enable".data.isPrefixOf (buf.dropWhile is_cmd_space) = true) :
    (control_handle_command m running buf).mouse.enabled = 1 ∧
    (control_handle_command m running buf).reply = "ok enabled\n".data ∧
    (control_handle_command m running buf).status = some (1, m.speed, m.drag_mode) := by
  unfold control_handle_command
  simp [h]

/-- Witness for C5: the spec's scenario "  enable\n" from the disabled
initial state. -/
theorem C5_witness :
    (control_handle_command mouse_init_mouse 1 "  enable\n".data).mouse.enabled = 1 ∧
    (control_handle_command mouse_init_mouse 1 "  enable\n".data).reply = "ok enabled\n".data ∧
    (control_handle_command mouse_init_mouse 1 "  enable\n".data).status = some (1, 4, 0) :=
  C5_enable_command mouse_init_mouse 1 "  enable\n".data (by decide)

/-- Claim C6 (confirmed): a control line matching none of the five command
prefixes after whitespace trimming gets the reply "err unknown_command" and
mutates nothing: the whole mouse state and the running flag are unchanged. -/
theorem C6_unknown_command (m : mouse_t) (running : Int) (buf : List Char)
    (h1 : "enable".data.isPrefixOf (buf.dropWhile is_cmd_space) = false)
    (h2 : "disable".data.isPrefixOf (buf.dropWhile is_cmd_space) = false)
    (h3 : "toggle".data.isPrefixOf (buf.dropWhile is_cmd_space) = false)
    (h4 : "status".data.isPrefixOf (buf.dropWhile is_cmd_space) = false)
    (h5 : "quit".data.isPrefixOf (buf.dropWhile is_cmd_space) = false) :
    (control_handle_command m running buf).reply = "err unknown_command\n".data ∧
    (control_handle_command m running buf).mouse = m ∧
    (control_handle_command m running buf).running = running := by
  unfold control_handle_command
  simp [h1, h2, h3, h4, h5]

/-- Witness for C6: the spec's scenario, command "frobnicate". -/
theorem C6_witness :
    (control_handle_command mouse_init_mouse 1 "frobnicate".data).reply
      = "err unknown_command\n".data ∧
    (control_handle_command mouse_init_mouse 1 "frobnicate".data).mouse = mouse_init_mouse ∧
    (control_handle_command mouse_init_mouse 1 "frobnicate".data).running = 1 :=
  C6_unknown_command mouse_init_mouse 1 "frobnicate".data
    (by decide) (by decide) (by decide) (by decide) (by decide)

/-- Counterexample to claim C7 as stated: release at time 7 of a hold that
began at time 5 (duration 2 ≥ MAX_TOGGLE_HOLD_TIME) returns CHANGED_TO_MOUSE
but does NOT reset toggle_down_at to 0 — the long-hold release branch of
mouse_toggle leaves the state untouched. -/
theorem C7_counterexample :
    (mouse_toggle ⟨0, 5, 4, 0⟩ ⟨7, EV_KEY, KEY_HELP, 0⟩).result = CHANGED_TO_MOUSE ∧
    ¬ (mouse_toggle ⟨0, 5, 4, 0⟩ ⟨7, EV_KEY, KEY_HELP, 0⟩).mouse.toggle_down_at = 0 := by
  decide

/-- Claim C7 (amended): on a toggle-key release while a hold is in flight the
result is CHANGED_TO_MOUSE in both cases, but the hold state is reset to 0
only when the duration is strictly below the threshold; at or beyond the
threshold toggle_down_at keeps its press-timestamp value. -/
theorem C7_release_reset (m : mouse_t) (ev : input_event)
    (hv : ev.value = 0) (hd : m.toggle_down_at ≠ 0) :
    (mouse_toggle m ev).result = CHANGED_TO_MOUSE ∧
    (ev.time - m.toggle_down_at < MAX_TOGGLE_HOLD_TIME →
      (mouse_toggle m ev).mouse.toggle_down_at = 0) ∧
    (MAX_TOGGLE_HOLD_TIME ≤ ev.time - m.toggle_down_at →
      (mouse_toggle m ev).mouse.toggle_down_at = m.toggle_down_at) := by
  unfold mouse_toggle get_toggle_time
  simp only [hv, hd]
  refine ⟨?_, ?_, ?_⟩ <;> try intro h
  all_goals split_ifs <;> simp_all <;> omega

/-- Witness for C7 at concrete inputs: short release resets the hold state,
long release keeps it. -/
theorem C7_witness :
    (mouse_toggle ⟨0, 5, 4, 0⟩ ⟨5, EV_KEY, KEY_HELP, 0⟩).mouse.toggle_down_at = 0 ∧
    (mouse_toggle ⟨0, 5, 4, 0⟩ ⟨7, EV_KEY, KEY_HELP, 0⟩).mouse.toggle_down_at = 5 :=
  ⟨(C7_release_reset ⟨0, 5, 4, 0⟩ ⟨5, EV_KEY, KEY_HELP, 0⟩ rfl (by decide)).2.1 (by decide),
   (C7_release_reset ⟨0, 5, 4, 0⟩ ⟨7, EV_KEY, KEY_HELP, 0⟩ rfl (by decide)).2.2 (by decide)⟩

/-- Counterexample to claim C8 as stated: with pointer mode enabled and
speed 4, the direct EV_KEY "left" event with value 1 is muted by
mouse_handle_event (its keycode has a keymap entry, so it is skipped as
"handled via MSC_SCAN"); it is not rewritten to a REL_X −4 motion. -/
theorem C8_counterexample :
    (mouse_handle_event keypad_keymap ⟨1, 0, 4, 0⟩ 0 ⟨0, EV_KEY, KEY_LEFT, 1⟩).result
      = MUTE_EVENT ∧
    ¬ (mouse_handle_event keypad_keymap ⟨1, 0, 4, 0⟩ 0 ⟨0, EV_KEY, KEY_LEFT, 1⟩).result
      = CHANGED_TO_MOUSE ∧
    (mouse_handle_event keypad_keymap ⟨1, 0, 4, 0⟩ 0 ⟨0, EV_KEY, KEY_LEFT, 1⟩).ev
      = ⟨0, EV_KEY, KEY_LEFT, 1⟩ := by
  decide

/-- Claim C8 (amended): with pointer mode enabled and speed 4, a left-key
press reaches the translator as the raw scan event (EV_MSC/MSC_SCAN with the
keypad's left scancode 19); that event is rewritten to a relative-motion
event on the horizontal axis (EV_REL/REL_X) with value −4 and routed to the
virtual mouse sink (CHANGED_TO_MOUSE), while the companion direct EV_KEY left
event is muted. -/
theorem C8_left_motion (m : mouse_t) (sc : Nat) (t v : Int)
    (he : m.enabled = 1) (hs : m.speed = 4) :
    (mouse_handle_event keypad_keymap m sc ⟨t, EV_MSC, MSC_SCAN, 19⟩).result
      = CHANGED_TO_MOUSE ∧
    (mouse_handle_event keypad_keymap m sc ⟨t, EV_MSC, MSC_SCAN, 19⟩).ev
      = ⟨t, EV_REL, REL_X, -4⟩ ∧
    (mouse_handle_event keypad_keymap m sc ⟨t, EV_KEY, KEY_LEFT, v⟩).result = MUTE_EVENT := by
  obtain ⟨e, td, sp, dm⟩ := m
  dsimp only at hs
  subst hs
  exact ⟨rfl, rfl, rfl⟩

/-- Witness for C8 at a concrete state: enabled, speed 4, counter 0. -/
theorem C8_witness :
    (mouse_handle_event keypad_keymap ⟨1, 0, 4, 0⟩ 0 ⟨0, EV_MSC, MSC_SCAN, 19⟩).ev
      = ⟨0, EV_REL, REL_X, -4⟩ :=
  (C8_left_motion ⟨1, 0, 4, 0⟩ 0 0 1 rfl rfl).2.1

/-- Claim C10 (confirmed): with pointer mode enabled, a direct EV_KEY event
whose keycode has an entry in the active keymap is muted by
mouse_handle_event with the state and event untouched; the raw MSC_SCAN
events instead dispatch on the keymap-decoded keycode, driving the speed,
click, drag, motion and scroll actions. -/
theorem C10_key_mute_scan_drive (km : List keymap_t) (m : mouse_t) (sc : Nat)
    (ev ev2 : input_event)
    (hk : ev.type = EV_KEY) (hin : keymap_get_scanvalue km ev.code ≠ -1)
    (h2t : ev2.type = EV_MSC) (h2c : ev2.code = MSC_SCAN) :
    mouse_handle_event km m sc ev
      = { result := MUTE_EVENT, mouse := m, slowdown_counter := sc, ev := ev } ∧
    mouse_handle_event km m sc ev2
      = mhe_dispatch m sc ev2 (keymap_get_keycode km ev2.value) := by
  constructor
  · unfold mouse_handle_event
    rw [hk]
    simp [EV_KEY, EV_MSC, hin]
  · unfold mouse_handle_event
    rw [h2t, h2c]
    simp [EV_MSC, MSC_SCAN]

/-- Witness for C10: the EV_KEY "left" event (in the keypad keymap) is muted
while the MSC_SCAN event with the left scancode dispatches as KEY_LEFT. -/
theorem C10_witness :
    mouse_handle_event keypad_keymap ⟨1, 0, 4, 0⟩ 0 ⟨0, EV_KEY, KEY_LEFT, 1⟩
      = { result := MUTE_EVENT, mouse := ⟨1, 0, 4, 0⟩, slowdown_counter := 0,
          ev := ⟨0, EV_KEY, KEY_LEFT, 1⟩ } ∧
    mouse_handle_event keypad_keymap ⟨1, 0, 4, 0⟩ 0 ⟨0, EV_MSC, MSC_SCAN, 19⟩
      = mhe_dispatch ⟨1, 0, 4, 0⟩ 0 ⟨0, EV_MSC, MSC_SCAN, 19⟩
          (keymap_get_keycode keypad_keymap 19) :=
  C10_key_mute_scan_drive keypad_keymap ⟨1, 0, 4, 0⟩ 0
    ⟨0, EV_KEY, KEY_LEFT, 1⟩ ⟨0, EV_MSC, MSC_SCAN, 19⟩ rfl (by decide) rfl rfl

/- Helper lemmas for the flip / status analysis of handle_input_event. -/

theorem mouse_toggle_cases (m : mouse_t) (ev : input_event) :
    (mouse_toggle m ev).mouse.enabled = m.enabled ∨
    (mouse_toggle m ev).result = CHANGED_TO_MOUSE := by
  unfold mouse_toggle
  split_ifs <;> simp

theorem hie_shape (km : List keymap_t) (m : mouse_t) (sc : Nat) (ev : input_event) :
    (handle_input_event km m sc ev).mouse.enabled = m.enabled ∨
    ((handle_input_event km m sc ev).ev = ev ∧
     (handle_input_event km m sc ev).result = CHANGED_TO_MOUSE ∧
     ev.type = EV_KEY) := by
  unfold handle_input_event
  split_ifs with h1 h2 h3 h4 h5
  · left; rfl
  · left; rfl
  · left; rfl
  · rcases mouse_toggle_cases m ev with h | h
    · left; exact h
    · right; exact ⟨rfl, h, h4.1⟩
  · left; rfl
  · left; exact mhe_enabled_eq km m sc ev

theorem hie_status_cases (km : List keymap_t) (m : mouse_t) (sc : Nat) (ev : input_event) :
    (handle_input_event km m sc ev).status = none ∨
    ((handle_input_event km m sc ev).mouse.speed = m.speed ∧
     (handle_input_event km m sc ev).mouse.drag_mode = m.drag_mode) := by
  unfold handle_input_event
  split_ifs
  · left; rfl
  · left; rfl
  · left; rfl
  · right; exact ⟨mouse_toggle_speed_eq m ev, mouse_toggle_drag_eq m ev⟩
  · left; rfl
  · left; rfl

/-- Counterexample to claim C1 as stated: the control command "toggle" flips
`enabled` (here false→true) yet the servicing step performs no uinput write
at all — in particular no Transition Sequencer run (no relative-motion write
on the virtual mouse sink) happens before the next event is processed. The
source contains no Transition Sequencer: neither control_handle_command nor
mouse_toggle emits anything on the virtual mouse when the flag flips. -/
theorem C1_counterexample :
    (control_step mouse_init_mouse 1 "toggle".data).1.mouse.enabled ≠ mouse_init_mouse.enabled ∧
    (control_step mouse_init_mouse 1 "toggle".data).2 = [] ∧
    ¬ sequencer_ran (control_step mouse_init_mouse 1 "toggle".data).2 := by
  refine ⟨by decide, rfl, ?_⟩
  intro h
  exact (by decide : ¬ sequencer_ran ([] : List SinkWrite)) h

/-- Claim C1 (amended): a flip of `enabled` is never followed by a Transition
Sequencer run. A control-channel step emits no uinput writes whatsoever, and
an input-event step that changes `enabled` (necessarily a toggle-key EV_KEY
event handled by mouse_toggle) forwards only the unmodified key event plus a
sync to the virtual mouse — never a relative-motion event, so no sequencer
run occurs between the flip and the next event. -/
theorem C1_no_sequencer_on_flip (m : mouse_t) (running : Int) (buf : List Char)
    (km : List keymap_t) (sc : Nat) (ev : input_event) :
    (control_step m running buf).2 = [] ∧
    ((process_input_event km m sc ev).1.mouse.enabled ≠ m.enabled →
      ¬ sequencer_ran (process_input_event km m sc ev).2) := by
  refine ⟨rfl, ?_⟩
  intro hflip hseq
  rcases hie_shape km m sc ev with h | ⟨hev, hres, hkey⟩
  · exact hflip h
  · have h2 : (process_input_event km m sc ev).2
        = [{ sink := Sink.mouse, type := ev.type, code := ev.code, value := ev.value },
           { sink := Sink.mouse, type := EV_SYN, code := SYN_REPORT, value := 0 }] := by
      show dispatch_writes (handle_input_event km m sc ev).result
            (handle_input_event km m sc ev).ev = _
      rw [hres, hev]
      rfl
    rw [h2] at hseq
    rcases hseq with ⟨w, hw, _, htype⟩
    have hwt : w.type = ev.type ∨ w.type = EV_SYN := by
      rcases List.mem_cons.mp hw with h | h
      · left; rw [h]
      · have h3 := List.mem_singleton.mp h
        right; rw [h3]
    rcases hwt with hwt | hwt
    · rw [hwt, hkey] at htype
      exact absurd htype (by decide)
    · rw [hwt] at htype
      exact absurd htype (by decide)

/-- Witness for C1 at a concrete flipping input: a short toggle-key release
flips `enabled` yet no sequencer write occurs in that step. -/
theorem C1_witness :
    ¬ sequencer_ran
        (process_input_event keypad_keymap ⟨0, 5, 4, 0⟩ 0 ⟨5, EV_KEY, KEY_HELP, 0⟩).2 :=
  (C1_no_sequencer_on_flip ⟨0, 5, 4, 0⟩ 1 [] keypad_keymap 0 ⟨5, EV_KEY, KEY_HELP, 0⟩).2
    (by decide)

/-- Counterexample to claim C9 as stated: the `toggle` control command flips
the mode but writes no status snapshot, and a volume-up key event changes the
speed parameter but writes no status snapshot either — the snapshot is NOT
rewritten on every mode or parameter change. -/
theorem C9_counterexample :
    (control_handle_command mouse_init_mouse 1 "toggle".data).mouse.enabled
      ≠ mouse_init_mouse.enabled ∧
    (control_handle_command mouse_init_mouse 1 "toggle".data).status = none ∧
    (handle_input_event keypad_keymap ⟨1, 0, 4, 0⟩ 0 ⟨0, EV_KEY, KEY_VOLUMEUP, 1⟩).mouse.speed
      ≠ (4 : Int) ∧
    (handle_input_event keypad_keymap ⟨1, 0, 4, 0⟩ 0 ⟨0, EV_KEY, KEY_VOLUMEUP, 1⟩).status
      = none := by
  decide

/-- Claim C9 (amended): the status snapshot is rewritten (with fields
enabled, speed, drag) by the `enable` and `disable` control commands and by a
sub-threshold manual toggle flip, but NOT by the `toggle` control command
(which flips the mode without writing it) and NOT by any input event handled
by mouse_handle_event — in particular speed and drag_mode changes caused by
translated key events never write the snapshot. -/
theorem C9_status_snapshot (m : mouse_t) (running : Int) (buf : List Char)
    (km : List keymap_t) (sc : Nat) (ev : input_event) :
    ("enable".data.isPrefixOf (buf.dropWhile is_cmd_space) = true →
      (control_handle_command m running buf).status = some (1, m.speed, m.drag_mode)) ∧
    ("enable".data.isPrefixOf (buf.dropWhile is_cmd_space) = false →
     "disable".data.isPrefixOf (buf.dropWhile is_cmd_space) = true →
      (control_handle_command m running buf).status = some (0, m.speed, m.drag_mode)) ∧
    ("enable".data.isPrefixOf (buf.dropWhile is_cmd_space) = false →
     "disable".data.isPrefixOf (buf.dropWhile is_cmd_space) = false →
     "toggle".data.isPrefixOf (buf.dropWhile is_cmd_space) = true →
      (control_handle_command m running buf).mouse.enabled = cNot m.enabled ∧
      (control_handle_command m running buf).status = none) ∧
    (ev.value = 0 → m.toggle_down_at ≠ 0 →
     ev.time - m.toggle_down_at < MAX_TOGGLE_HOLD_TIME →
      (mouse_toggle m ev).mouse.enabled = cNot m.enabled ∧
      (mouse_toggle m ev).status = some (cNot m.enabled, m.speed, m.drag_mode)) ∧
    (((handle_input_event km m sc ev).mouse.speed ≠ m.speed ∨
      (handle_input_event km m sc ev).mouse.drag_mode ≠ m.drag_mode) →
      (handle_input_event km m sc ev).status = none) := by
  refine ⟨?_, ?_, ?_, ?_, ?_⟩
  · intro h1
    unfold control_handle_command
    simp [h1]
  · intro h1 h2
    unfold control_handle_command
    simp [h1, h2]
  · intro h1 h2 h3
    unfold control_handle_command
    simp [h1, h2, h3]
  · intro hv hd hshort
    unfold mouse_toggle get_toggle_time
    simp only [hv, hd]
    split_ifs <;> simp_all <;> omega
  · intro hchange
    rcases hie_status_cases km m sc ev with h | ⟨hs, hd⟩
    · exact h
    · rcases hchange with hc | hc
      · exact absurd hs hc
      · exact absurd hd hc

/-- Witness for C9 at concrete inputs: enable and disable write the snapshot,
toggle does not, a short manual toggle does, and a speed-changing volume
event does not. -/
theorem C9_witness :
    (control_handle_command mouse_init_mouse 1 "enable".data).status = some (1, 4, 0) ∧
    (control_handle_command mouse_init_mouse 1 "disable".data).status = some (0, 4, 0) ∧
    (control_handle_command mouse_init_mouse 1 "toggle".data).status = none ∧
    (mouse_toggle ⟨0, 5, 4, 0⟩ ⟨5, EV_KEY, KEY_HELP, 0⟩).status = some (1, 4, 0) ∧
    (handle_input_event keypad_keymap ⟨1, 0, 4, 0⟩ 0 ⟨0, EV_KEY, KEY_VOLUMEUP, 1⟩).status
      = none := by
  refine ⟨?_, ?_, ?_, ?_, ?_⟩
  · exact (C9_status_snapshot mouse_init_mouse 1 "enable".data keypad_keymap 0
      ⟨0, 0, 0, 0⟩).1 (by decide)
  · exact (C9_status_snapshot mouse_init_mouse 1 "disable".data keypad_keymap 0
      ⟨0, 0, 0, 0⟩).2.1 (by decide) (by decide)
  · exact ((C9_status_snapshot mouse_init_mouse 1 "toggle".data keypad_keymap 0
      ⟨0, 0, 0, 0⟩).2.2.1 (by decide) (by decide) (by decide)).2
  · exact ((C9_status_snapshot ⟨0, 5, 4, 0⟩ 1 [] keypad_keymap 0
      ⟨5, EV_KEY, KEY_HELP, 0⟩).2.2.2.1 rfl (by decide) (by decide)).2
  · exact (C9_status_snapshot ⟨1, 0, 4, 0⟩ 1 [] keypad_keymap 0
      ⟨0, EV_KEY, KEY_VOLUMEUP, 1⟩).2.2.2.2 (by decide)

/- Scroll-key rate limiting (the static slowdown_counter of
mouse_handle_event). -/

/-- The state in which scroll presses are processed: pointer mode enabled,
otherwise the mouse_init values. -/
def scroll_start : mouse_t := { mouse_init_mouse with enabled := 1 }

/-- The raw scan event of one scroll-key press on the keypad: scancode 33
decodes to KEY_MENU (scroll up), scancode 2 to KEY_SEND (scroll down). -/
def scroll_press (menu : Bool) : input_event :=
  { time := 0, type := EV_MSC, code := MSC_SCAN, value := if menu then 33 else 2 }

/-- Forwarded/muted decisions for a sequence of scroll presses (true = menu,
false = send) processed by mouse_handle_event, threading the mouse state and
the slowdown counter; an entry is true when that press was forwarded to the
virtual mouse (CHANGED_TO_MOUSE). -/
def scroll_decisions : mouse_t → Nat → List Bool → List Bool
  | _, _, [] => []
  | m, sc, k :: rest =>
      let o := mouse_handle_event keypad_keymap m sc (scroll_press k)
      decide (o.result = CHANGED_TO_MOUSE) :: scroll_decisions o.mouse o.slowdown_counter rest

/-- The counter-determined decision sequence: starting from counter value sc,
entry i is true exactly when the counter before press i is ≡ 0 modulo
WHEEL_SLOWDOWN_FACTOR; the counter wraps at UINT_MOD like the C unsigned. -/
def counter_run : Nat → Nat → List Bool
  | _, 0 => []
  | sc, n + 1 =>
      decide (sc % WHEEL_SLOWDOWN_FACTOR = 0) :: counter_run ((sc + 1) % UINT_MOD) n

/-- 1 for a forwarded press, 0 for a muted one. -/
def bnat (b : Bool) : Nat := if b then 1 else 0

/-- Number of forwarded presses among the five consecutive presses starting
at index k of a decision sequence (out-of-range entries count as muted). -/
def window_count (ds : List Bool) (k : Nat) : Nat :=
  bnat (ds.getD k false) + bnat (ds.getD (k + 1) false) + bnat (ds.getD (k + 2) false)
    + bnat (ds.getD (k + 3) false) + bnat (ds.getD (k + 4) false)

/-- Claim C4's rate-limit property of a decision sequence: every window of
five consecutive presses contains exactly one forwarded press. -/
def one_per_window (ds : List Bool) : Prop :=
  ∀ k, k + 5 ≤ ds.length → window_count ds k = 1

theorem scroll_decisions_eq (keys : List Bool) :
    ∀ (m : mouse_t) (sc : Nat), scroll_decisions m sc keys = counter_run sc keys.length := by
  induction keys with
  | nil => intro m sc; rfl
  | cons k rest ih =>
      intro m sc
      have hstep : mouse_handle_event keypad_keymap m sc (scroll_press k)
          = mhe_dispatch m sc (scroll_press k) (if k then KEY_MENU else KEY_SEND) := by
        cases k <;> rfl
      by_cases hsc : sc % WHEEL_SLOWDOWN_FACTOR = 0 <;> cases k <;>
        simp [scroll_decisions, counter_run, hstep, mhe_dispatch_menu_eq, mhe_dispatch_send_eq,
              hsc, ih, CHANGED_TO_MOUSE, MUTE_EVENT]

theorem counter_run_length (n : Nat) : ∀ sc, (counter_run sc n).length = n := by
  induction n with
  | zero => intro sc; rfl
  | succ n ih => intro sc; simp [counter_run, ih]

theorem counter_run_getD (n : Nat) :
    ∀ sc i, sc < UINT_MOD → i < n →
      (counter_run sc n).getD i false
        = decide ((sc + i) % UINT_MOD % WHEEL_SLOWDOWN_FACTOR = 0) := by
  induction n with
  | zero => intro sc i _ hi; exact absurd hi (Nat.not_lt_zero i)
  | succ n ih =>
      intro sc i hsc hi
      cases i with
      | zero =>
          simp only [counter_run, List.getD_cons_zero, Nat.add_zero, Nat.mod_eq_of_lt hsc]
      | succ i =>
          have hM : (0 : Nat) < UINT_MOD := by norm_num [UINT_MOD]
          have h2 : (sc + 1) % UINT_MOD < UINT_MOD := Nat.mod_lt _ hM
          have h3 := ih ((sc + 1) % UINT_MOD) i h2 (by omega)
          simp only [counter_run, List.getD_cons_succ]
          rw [h3, Nat.mod_add_mod]
          have h4 : sc + 1 + i = sc + (i + 1) := by omega
          rw [h4]

theorem window_five (k : Nat) :
    bnat (decide (k % 5 = 0)) + bnat (decide ((k + 1) % 5 = 0))
      + bnat (decide ((k + 2) % 5 = 0)) + bnat (decide ((k + 3) % 5 = 0))
      + bnat (decide ((k + 4) % 5 = 0)) = 1 := by
  simp only [bnat, decide_eq_true_eq]
  split_ifs <;> omega

/-- Closed form of a five-press window of counter_run: proved once with free
variables so that every later use is a plain instantiation. -/
theorem window_count_formula (sc n k : Nat) (hsc : sc < UINT_MOD) (hk : k + 4 < n) :
    window_count (counter_run sc n) k
      = bnat (decide ((sc + k) % UINT_MOD % WHEEL_SLOWDOWN_FACTOR = 0))
        + bnat (decide ((sc + (k + 1)) % UINT_MOD % WHEEL_SLOWDOWN_FACTOR = 0))
        + bnat (decide ((sc + (k + 2)) % UINT_MOD % WHEEL_SLOWDOWN_FACTOR = 0))
        + bnat (decide ((sc + (k + 3)) % UINT_MOD % WHEEL_SLOWDOWN_FACTOR = 0))
        + bnat (decide ((sc + (k + 4)) % UINT_MOD % WHEEL_SLOWDOWN_FACTOR = 0)) := by
  unfold window_count
  rw [counter_run_getD n sc k hsc (by omega),
      counter_run_getD n sc (k + 1) hsc (by omega),
      counter_run_getD n sc (k + 2) hsc (by omega),
      counter_run_getD n sc (k + 3) hsc (by omega),
      counter_run_getD n sc (k + 4) hsc (by omega)]

/-- Before the counter wraps, a five-press window from startup counts exactly
one forwarded press. -/
theorem window_sum_one (k : Nat) (hw : k + 5 ≤ UINT_MOD) :
    bnat (decide ((0 + k) % UINT_MOD % WHEEL_SLOWDOWN_FACTOR = 0))
      + bnat (decide ((0 + (k + 1)) % UINT_MOD % WHEEL_SLOWDOWN_FACTOR = 0))
      + bnat (decide ((0 + (k + 2)) % UINT_MOD % WHEEL_SLOWDOWN_FACTOR = 0))
      + bnat (decide ((0 + (k + 3)) % UINT_MOD % WHEEL_SLOWDOWN_FACTOR = 0))
      + bnat (decide ((0 + (k + 4)) % UINT_MOD % WHEEL_SLOWDOWN_FACTOR = 0)) = 1 := by
  simp only [Nat.zero_add]
  rw [Nat.mod_eq_of_lt (show k < UINT_MOD by omega),
      Nat.mod_eq_of_lt (show k + 1 < UINT_MOD by omega),
      Nat.mod_eq_of_lt (show k + 2 < UINT_MOD by omega),
      Nat.mod_eq_of_lt (show k + 3 < UINT_MOD by omega),
      Nat.mod_eq_of_lt (show k + 4 < UINT_MOD by omega)]
  exact window_five k

/-- The window starting at index 2^32 − 1 counts two forwarded presses:
4294967295 mod 5 = 0 and, after the unsigned wrap, 4294967296 mod 2^32 = 0 as
well, so two adjacent presses are both forwarded. -/
theorem wrap_window_value :
    bnat (decide ((0 + 4294967295) % UINT_MOD % WHEEL_SLOWDOWN_FACTOR = 0))
      + bnat (decide ((0 + (4294967295 + 1)) % UINT_MOD % WHEEL_SLOWDOWN_FACTOR = 0))
      + bnat (decide ((0 + (4294967295 + 2)) % UINT_MOD % WHEEL_SLOWDOWN_FACTOR = 0))
      + bnat (decide ((0 + (4294967295 + 3)) % UINT_MOD % WHEEL_SLOWDOWN_FACTOR = 0))
      + bnat (decide ((0 + (4294967295 + 4)) % UINT_MOD % WHEEL_SLOWDOWN_FACTOR = 0)) = 2 := by
  decide

/-- Counterexample to claim C4 as stated: the slowdown counter is a C
unsigned int and wraps at 2^32. Since 2^32 − 1 = 4294967295 is divisible by
5, in a run of 2^32 + 4 consecutive menu presses from startup the presses at
indices 4294967295 and 4294967296 are BOTH forwarded, so the window of five
consecutive presses starting at index 4294967295 contains two forwarded
presses, not exactly one. -/
theorem C4_counterexample :
    ¬ one_per_window
        (scroll_decisions scroll_start 0 (List.replicate (UINT_MOD + 4) true)) := by
  intro h
  have hL : (scroll_decisions scroll_start 0 (List.replicate (UINT_MOD + 4) true)).length
      = UINT_MOD + 4 := by
    rw [scroll_decisions_eq, List.length_replicate, counter_run_length]
  have h2 := h 4294967295 (by rw [hL]; norm_num [UINT_MOD])
  rw [scroll_decisions_eq, List.length_replicate] at h2
  rw [window_count_formula 0 (UINT_MOD + 4) 4294967295 (by norm_num [UINT_MOD])
        (by norm_num [UINT_MOD])] at h2
  rw [wrap_window_value] at h2
  exact absurd h2 (by decide)

/-- Claim C4 (amended): as long as the window lies within the first 2^32
scroll presses since startup (no counter wrap), every five consecutive scroll
presses contain exactly one forwarded wheel event; the counter is a single
process-wide value shared by both scroll keys, so this holds for every
interleaving of menu and send presses (the decision sequence does not depend
on which of the two keys is pressed). -/
theorem C4_scroll_rate_limit (keys : List Bool) (k : Nat)
    (hk : k + 5 ≤ keys.length) (hw : k + 5 ≤ UINT_MOD) :
    window_count (scroll_decisions scroll_start 0 keys) k = 1 := by
  rw [scroll_decisions_eq]
  rw [window_count_formula 0 keys.length k (by norm_num [UINT_MOD]) (by omega)]
  exact window_sum_one k hw

/-- Witness for C4: five consecutive menu presses from startup contain
exactly one forwarded wheel event. -/
theorem C4_witness :
    window_count (scroll_decisions scroll_start 0 (List.replicate 5 true)) 0 = 1 :=
  C4_scroll_rate_limit (List.replicate 5 true) 0 (by simp) (by norm_num [UINT_MOD])

end FlipMouse

